import Mathlib

/-!
# Verification of the RustSploit GUI backend authorization core

A shallow embedding of the backend's permission-resolution and
request-authorization logic (`src/backend/src/database.ts`,
`src/backend/src/middleware.ts`, the auth/users/acl/proxy route handlers),
together with theorems settling the specification's claims about it.

JavaScript runtime values that flow through `JSON.parse`, member access and
truthiness tests are modelled by `JsVal`; fallible member access (which can
raise `TypeError` on `null`/`undefined`) is `jsGetMember`, returning
`Except`.
-/

/-- A JavaScript runtime value, as produced by `JSON.parse` and consumed by
the permission middleware.  `undefined` is JavaScript `undefined` (the result of
reading an absent property); it is never produced by `JSON.parse` but arises
during evaluation. -/
inductive JsVal where
  | null : JsVal
  | undefined : JsVal
  | bool : Bool → JsVal
  | num : Int → JsVal
  | str : String → JsVal
  | arr : List JsVal → JsVal
  | obj : List (String × JsVal) → JsVal
  deriving Repr

namespace JsVal

/-- JavaScript truthiness: `null`, `undefined`, `false`, `0` and `""` are
falsy, everything else (objects and arrays included) is truthy. -/
def toBool : JsVal → Bool
  | .null => false
  | .undefined => false
  | .bool b => b
  | .num n => n ≠ 0
  | .str s => s ≠ ""
  | .arr _ => true
  | .obj _ => true

end JsVal

/-- A JavaScript runtime error (the only kind the middleware can raise is a
`TypeError` from reading a property of `null`/`undefined`). -/
inductive JsErr where
  | typeError : JsErr
  deriving Repr

/-- Property read `v[k]` for the (non-numeric) property names the middleware
uses: reading from `null`/`undefined` throws `TypeError`; reading an absent
key of an object, or any such named key of a primitive or array, yields
`undefined`. -/
def jsGetMember : JsVal → String → Except JsErr JsVal
  | .null, _ => .error .typeError
  | .undefined, _ => .error .typeError
  | .obj fields, k =>
      match fields.find? (fun p => p.1 = k) with
      | some p => .ok p.2
      | none => .ok .undefined
  | _, _ => .ok .undefined

/-- The stored text of a `TEXT` column holding JSON (`custom_acl_json`,
`permissions_json`): either the empty string (falsy in JavaScript, and
`JSON.parse` rejects it), some other text `JSON.parse` rejects, or text
parsing to a `JsVal`. -/
inductive StoredText where
  | empty : StoredText
  | malformed : StoredText
  | parsed : JsVal → StoredText
  deriving Repr

/-- A row of the `users` table (`UserRow` in `database.ts`).  `role` is kept
as a string, as in the source, where every branch compares it literally. -/
structure UserRow where
  id : Nat
  username : String
  email : String
  password_hash : String
  role : String
  totp_secret : Option String
  totp_enabled : Int
  acl_template_id : Option Nat
  custom_acl_json : Option StoredText
  deriving Repr

/-- A row of the `acl_templates` table (`AclTemplateRow` in `database.ts`). -/
structure AclTemplateRow where
  id : Nat
  name : String
  permissions_json : StoredText
  deriving Repr

/-- Build a permission document `{ panels: { p₁: { a₁: b₁, ... }, ... } }`
as a `JsVal`, the shape of every built-in document in `database.ts`. -/
def mkPanels (panels : List (String × List (String × Bool))) : JsVal :=
  .obj [("panels", .obj (panels.map (fun p => (p.1, JsVal.obj (p.2.map (fun a => (a.1, JsVal.bool a.2)))))))]

/-- The built-in document returned for role `sysadmin`
(`database.ts:167-179`, comment: "sysadmin gets everything"). -/
def sysadminDoc : JsVal :=
  mkPanels
    [("modules", [("view", true), ("run", true)]),
     ("jobs", [("view", true)]),
     ("target", [("view", true), ("set", true)]),
     ("status", [("view", true)]),
     ("users", [("view", true), ("manage", true)]),
     ("acl", [("view", true), ("manage", true)]),
     ("settings", [("view", true)])]

/-- The built-in document returned for role `admin` (`database.ts:182-194`). -/
def adminDoc : JsVal :=
  mkPanels
    [("modules", [("view", true), ("run", true)]),
     ("jobs", [("view", true), ("kill", true)]),
     ("target", [("view", true), ("set", true)]),
     ("status", [("view", true)]),
     ("users", [("view", true), ("manage", true)]),
     ("acl", [("view", false), ("manage", false)]),
     ("settings", [("view", true)])]

/-- The built-in document returned for role `operator` (`database.ts:197-209`). -/
def operatorDoc : JsVal :=
  mkPanels
    [("modules", [("view", true), ("run", true)]),
     ("jobs", [("view", true), ("kill", true)]),
     ("target", [("view", true), ("set", true)]),
     ("status", [("view", true)]),
     ("users", [("view", false), ("manage", false)]),
     ("acl", [("view", false), ("manage", false)]),
     ("settings", [("view", true)])]

/-- The built-in document returned for role `readonly` (`database.ts:212-224`). -/
def readonlyDoc : JsVal :=
  mkPanels
    [("modules", [("view", true), ("run", false)]),
     ("jobs", [("view", true), ("kill", false)]),
     ("target", [("view", true), ("set", false)]),
     ("status", [("view", true)]),
     ("users", [("view", false), ("manage", false)]),
     ("acl", [("view", false), ("manage", false)]),
     ("settings", [("view", true)])]

/-- The fallback document (`database.ts:237-247`, comment: "Default
pentester permissions"). -/
def defaultDoc : JsVal :=
  mkPanels
    [("modules", [("view", true), ("run", true)]),
     ("jobs", [("view", true)]),
     ("target", [("view", true), ("set", true)]),
     ("status", [("view", true)]),
     ("users", [("view", false), ("manage", false)]),
     ("acl", [("view", false), ("manage", false)]),
     ("settings", [("view", true)])]

/-- `SELECT * FROM acl_templates WHERE id = ?`. -/
def findTemplate (templates : List AclTemplateRow) (tid : Nat) : Option AclTemplateRow :=
  templates.find? (fun t => t.id = tid)

/-- `getEffectivePermissions` (`database.ts:158-248`), step for step:
1. if `custom_acl_json` is truthy (present, non-empty) and parses, return
   the parsed value verbatim (any JSON value — the cast does not validate);
   on a parse error fall through;
2. literal role comparisons for `sysadmin`, `admin`, `operator`, `readonly`
   (there is no `pentester` branch);
3. if `acl_template_id` is truthy and the template exists and its
   `permissions_json` parses, return the parsed value; else fall through;
4. the fallback default. -/
def getEffectivePermissions (templates : List AclTemplateRow) (user : UserRow) : JsVal :=
  match user.custom_acl_json with
  | some (.parsed v) => v
  | _ =>
    if user.role = "sysadmin" then sysadminDoc
    else if user.role = "admin" then adminDoc
    else if user.role = "operator" then operatorDoc
    else if user.role = "readonly" then readonlyDoc
    else
      match user.acl_template_id with
      | some tid =>
        if tid ≠ 0 then
          match findTemplate templates tid with
          | some t =>
            match t.permissions_json with
            | .parsed v => v
            | _ => defaultDoc
          | none => defaultDoc
        else defaultDoc
      | none => defaultDoc

/-- `SELECT * FROM users WHERE id = ?`. -/
def getUserById (db : List UserRow) (uid : Nat) : Option UserRow :=
  db.find? (fun u => u.id = uid)

/-- `SELECT * FROM users WHERE username = ?` (case-sensitive byte compare). -/
def getUserByUsername (db : List UserRow) (username : String) : Option UserRow :=
  db.find? (fun u => u.username = username)

/-- The decoded claims of a JWT as read by the backend.  A full session
token (`generateToken`) carries `userId`, `username`, `role`; the temporary
second-factor token carries `userId` and `purpose: 'totp-verify'` only.
Absent claims decode to `undefined`, modelled as `none`. -/
structure JwtClaims where
  userId : Nat
  username : Option String := none
  role : Option String := none
  purpose : Option String := none
  deriving Repr

/-- A JWT as seen by `jwt.verify`: its claims, whether its signature
verifies against `JWT_SECRET`, and whether it is expired.  `jwt.verify`
throws exactly when the signature is bad or the token expired; it inspects
no other claim. -/
structure Token where
  claims : JwtClaims
  validSig : Bool
  expired : Bool
  deriving Repr

/-- `generateToken` (`middleware.ts:24-31`): signs `{userId, username,
role}` with `JWT_SECRET`, 8h expiry.  Freshly issued: valid signature, not
expired. -/
def generateToken (user : UserRow) : Token :=
  { claims := { userId := user.id, username := some user.username, role := some user.role },
    validSig := true, expired := false }

/-- The temporary token issued by the login handler when TOTP is enabled
(`routes/auth.ts:41-45`): signs `{userId, purpose: 'totp-verify'}` with the
same `JWT_SECRET`, 5m expiry. -/
def tempTotpToken (user : UserRow) : Token :=
  { claims := { userId := user.id, purpose := some "totp-verify" },
    validSig := true, expired := false }

/-- The `Authorization` header of a request: absent, present but not of the
form `Bearer <token>`, or carrying a token. -/
inductive AuthHeader where
  | missing : AuthHeader
  | notBearer : String → AuthHeader
  | bearer : Token → AuthHeader

/-- Outcome of `authenticateJWT`: an early `res.status(...).json({message})`
response, or `next()` with `req.user` and `req.jwtPayload` attached. -/
inductive AuthOutcome where
  | reject : Nat → String → AuthOutcome
  | proceed : UserRow → JwtClaims → AuthOutcome
  deriving Repr

/-- `authenticateJWT` (`middleware.ts:36-62`): requires a `Bearer` header;
`jwt.verify` checks signature and expiry only (its failure is caught as
401 "Invalid or expired token"); then the user is looked up by the
`userId` claim — a missing user is 401 "User no longer exists"; otherwise
the user is attached and `next()` runs.  No claim other than `userId` is
inspected. -/
def authenticateJWT (db : List UserRow) (h : AuthHeader) : AuthOutcome :=
  match h with
  | .missing => .reject 401 "Authentication required"
  | .notBearer _ => .reject 401 "Authentication required"
  | .bearer tok =>
    if tok.validSig ∧ tok.expired = false then
      match getUserById db tok.claims.userId with
      | none => .reject 401 "User no longer exists"
      | some user => .proceed user tok.claims
    else .reject 401 "Invalid or expired token"

/-- Outcome of the `requirePermission` gate after authentication: deny with
403 echoing the permission name, or `next()`. -/
inductive PermDecision where
  | denied : String → PermDecision
  | allowed : PermDecision
  deriving Repr, DecidableEq

/-- The characters before the first `'.'`. -/
def takeUntilDot : List Char → List Char
  | [] => []
  | c :: rest => if c = '.' then [] else c :: takeUntilDot rest

/-- The characters after the first `'.'`, when one occurs. -/
def dropPastDot : List Char → Option (List Char)
  | [] => none
  | c :: rest => if c = '.' then some rest else dropPastDot rest

/-- `permission.split('.')` destructured as `[panel, action]`: `panel` is
the segment before the first dot and `action` the segment between the
first and second dots; with no dot, `action` is JavaScript `undefined`,
which as a property key coerces to the string `"undefined"`. -/
def splitPermission (permission : String) : String × String :=
  let cs := permission.toList
  let panel := String.mk (takeUntilDot cs)
  let action := match dropPastDot cs with
    | none => "undefined"
    | some rest => String.mk (takeUntilDot rest)
  (panel, action)

/-- The body of `requirePermission(permission)` (`middleware.ts:93-113`)
for an authenticated request: resolve permissions fresh, then evaluate
`!perms.panels[panel] || !perms.panels[panel][action]` with JavaScript
member-access semantics (so a resolved document without an indexable
`panels` member raises `TypeError`, modelled in the `Except` error).  The
left operand is evaluated first; the right one re-reads
`perms.panels[panel]` exactly as the source does. -/
def requirePermissionRun (templates : List AclTemplateRow) (user : UserRow)
    (permission : String) : Except JsErr PermDecision :=
  let panel := (splitPermission permission).1
  let action := (splitPermission permission).2
  let perms := getEffectivePermissions templates user
  match jsGetMember perms "panels" with
  | .error e => .error e
  | .ok pv =>
    match jsGetMember pv panel with
    | .error e => .error e
    | .ok v1 =>
      if v1.toBool = false then .ok (.denied permission)
      else
        match jsGetMember perms "panels" with
        | .error e => .error e
        | .ok pv2 =>
          match jsGetMember pv2 panel with
          | .error e => .error e
          | .ok v2 =>
            match jsGetMember v2 action with
            | .error e => .error e
            | .ok v3 =>
              if v3.toBool = false then .ok (.denied permission)
              else .ok .allowed

/-- Truthiness of a nullable string column (`user.totp_secret`): present
and non-empty. -/
def optStrTruthy : Option String → Bool
  | some s => s ≠ ""
  | none => false

/-- Response of `POST /api/auth/login`. -/
inductive LoginResponse where
  | badRequest : String → LoginResponse
  | unauthorized : String → LoginResponse
  | totpRequired : Token → String → LoginResponse
  | success : Token → LoginResponse
  deriving Repr

/-- `POST /api/auth/login` (`routes/auth.ts:17-67`), parameterised by the
trusted bcrypt comparison `verify password hash`: missing fields are 400;
an unknown username performs a dummy hash comparison and returns 401
"Invalid credentials"; a wrong password returns the same 401 message; with
TOTP enabled and a truthy secret, only the temporary purpose-tagged token
is issued; otherwise a full session token. -/
def loginHandler (verify : String → String → Bool) (db : List UserRow)
    (username password : String) : LoginResponse :=
  if username = "" ∨ password = "" then
    .badRequest "Username and password are required"
  else
    match getUserByUsername db username with
    | none =>
      -- verifyPassword(password, fixedHash) runs for timing only; result unused
      .unauthorized "Invalid credentials"
    | some user =>
      if verify password user.password_hash = false then
        .unauthorized "Invalid credentials"
      else if user.totp_enabled ≠ 0 ∧ optStrTruthy user.totp_secret then
        .totpRequired (tempTotpToken user) "TOTP verification required"
      else
        .success (generateToken user)

/-- What a single `axios(...)` call with `validateStatus: () => true` comes
back as: an HTTP response of any status (never thrown), or a thrown
transport error carrying an error `code` (`ECONNREFUSED`, `ECONNABORTED` on
timeout, ...) and a message. -/
inductive AxiosOutcome where
  | response : Nat → JsVal → AxiosOutcome
  | failure : Option String → String → AxiosOutcome
  deriving Repr

/-- The `{status, data}` result `proxyToRsf` resolves with. -/
structure ProxyResult where
  status : Nat
  data : JsVal
  deriving Repr

/-- `proxyToRsf` (`routes/proxy.ts`, `acl.ts` source lines 158-185 of the
claim): upstream responses of any status pass through verbatim; a thrown
error with code `ECONNREFUSED` becomes `502` with a fixed message; every
other thrown error (timeouts included) becomes `500` with
`'Proxy error: ' + message`.  Total: no outcome is re-thrown. -/
def proxyToRsf : AxiosOutcome → ProxyResult
  | .response status data => { status := status, data := data }
  | .failure code msg =>
    if code = some "ECONNREFUSED" then
      { status := 502,
        data := .obj [("success", .bool false), ("message", .str "RustSploit API is not reachable")] }
    else
      { status := 500,
        data := .obj [("success", .bool false), ("message", .str ("Proxy error: " ++ msg))] }

/-- The persistent store: `users` and `acl_templates` tables. -/
structure Db where
  users : List UserRow
  templates : List AclTemplateRow
  deriving Repr

/-- Response of `DELETE /api/acl/templates/:id`. -/
inductive DeleteTemplateResponse where
  | notFound : String → DeleteTemplateResponse
  | deleted : String → DeleteTemplateResponse
  deriving Repr

/-- `DELETE /api/acl/templates/:id` (`routes/acl.ts:120-134`): 404 if the
template does not exist; otherwise
`UPDATE users SET acl_template_id = NULL WHERE acl_template_id = ?`
followed by `DELETE FROM acl_templates WHERE id = ?`. -/
def deleteAclTemplate (db : Db) (tid : Nat) : Db × DeleteTemplateResponse :=
  match findTemplate db.templates tid with
  | none => (db, .notFound "Template not found")
  | some _ =>
    ({ users := db.users.map (fun u =>
          if u.acl_template_id = some tid then { u with acl_template_id := none } else u),
       templates := db.templates.filter (fun t => ¬ t.id = tid) },
     .deleted "Template deleted successfully")

/-- Outcome of the role-validation portion of the user CRUD handlers. -/
inductive RoleCheckOutcome where
  | invalidRole : Nat → String → RoleCheckOutcome
  | forbidden : Nat → String → RoleCheckOutcome
  | accepted : String → RoleCheckOutcome
  deriving Repr, DecidableEq

/-- `validRoles` of `POST /api/users` (`routes/users.ts:47`). -/
def createUserValidRoles : List String := ["pentester", "admin", "sysadmin"]

/-- `validRoles` of `PUT /api/users/:id` (`routes/users.ts:121`). -/
def updateUserValidRoles : List String := ["pentester", "operator", "admin", "sysadmin", "readonly"]

/-- The role validation of `POST /api/users` (`routes/users.ts:46-58`):
`role || 'pentester'` defaults a missing/empty role; a role outside
`['pentester','admin','sysadmin']` is a 400; creating a sysadmin requires a
sysadmin requester. -/
def postUsersRoleCheck (requesterRole : String) (role : Option String) : RoleCheckOutcome :=
  let userRole := match role with
    | some r => if r = "" then "pentester" else r
    | none => "pentester"
  if createUserValidRoles.contains userRole = false then
    .invalidRole 400 "Invalid role. Must be: pentester, admin, sysadmin"
  else if userRole = "sysadmin" ∧ requesterRole ≠ "sysadmin" then
    .forbidden 403 "Only sysadmins can create sysadmin accounts"
  else
    .accepted userRole

/-- The role-relevant portion of `PUT /api/users/:id`
(`routes/users.ts:110-132`): the target-is-sysadmin guard, then — when a
role is supplied — membership in the five-element `validRoles` list (else
400) and the assign-sysadmin guard. -/
def putUsersRoleCheck (requesterRole targetRole role : String) : RoleCheckOutcome :=
  if targetRole = "sysadmin" ∧ requesterRole ≠ "sysadmin" then
    .forbidden 403 "Only sysadmins can modify sysadmin accounts"
  else if updateUserValidRoles.contains role = false then
    .invalidRole 400 "Invalid role. Must be: pentester, operator, admin, sysadmin, readonly"
  else if role = "sysadmin" ∧ requesterRole ≠ "sysadmin" then
    .forbidden 403 "Only sysadmins can assign sysadmin role"
  else
    .accepted role

/-- A user row with the given role, template reference and custom document,
and neutral values for the remaining columns. -/
def mkUser (id : Nat) (role : String) (tpl : Option Nat) (custom : Option StoredText) : UserRow :=
  { id := id, username := "u", email := "", password_hash := "h", role := role,
    totp_secret := none, totp_enabled := 0, acl_template_id := tpl,
    custom_acl_json := custom }

/-- The user `alice` with TOTP enabled, for exercising the login handler's
second-factor path. -/
def aliceTotp : UserRow :=
  { id := 7, username := "alice", email := "", password_hash := "h",
    role := "pentester", totp_secret := some "JBSWY3DP", totp_enabled := 1,
    acl_template_id := none, custom_acl_json := none }

/-- The template used in the C9 scenarios. -/
def tplFive : AclTemplateRow :=
  { id := 5, name := "Read Only", permissions_json := .parsed (.obj [("panels", .obj [])]) }

/-- A pentester referencing template 5 who also carries a parsed custom
document. -/
def bobCustom : UserRow :=
  mkUser 9 "pentester" (some 5) (some (.parsed (.obj [("k", .bool true)])))

/-- C1: presenting the short-lived second-factor token as the bearer token
elsewhere is claimed to be rejected with 401.  In fact the login handler's
`tempToken` carries a `userId` claim and is signed with the same
`JWT_SECRET`, and `authenticateJWT` checks only signature, expiry and the
user lookup — never the `purpose` claim — so the temp token is accepted:
the user is attached and `next()` runs. -/
theorem C1_temp_token_accepted_by_authenticateJWT :
    loginHandler (fun _ _ => true) [aliceTotp] "alice" "pw"
      = .totpRequired (tempTotpToken aliceTotp) "TOTP verification required"
    ∧ (tempTotpToken aliceTotp).claims.purpose = some "totp-verify"
    ∧ authenticateJWT [aliceTotp] (.bearer (tempTotpToken aliceTotp))
      = .proceed aliceTotp (tempTotpToken aliceTotp).claims := by
  refine ⟨rfl, rfl, rfl⟩

/-- C3: with role `sysadmin` and no custom document the resolver returns
the built-in sysadmin document — whose `jobs` panel is `{view: true}` only,
so the canonical action `jobs.kill` resolves to absent/false and
`requirePermission('jobs.kill')` denies with 403, while e.g.
`users.manage` is granted. -/
theorem C3_sysadmin_doc_lacks_jobs_kill :
    getEffectivePermissions [] (mkUser 1 "sysadmin" none none) = sysadminDoc
    ∧ requirePermissionRun [] (mkUser 1 "sysadmin" none none) "jobs.kill"
      = .ok (.denied "jobs.kill")
    ∧ requirePermissionRun [] (mkUser 1 "sysadmin" none none) "users.manage"
      = .ok .allowed := by
  refine ⟨rfl, rfl, rfl⟩

/-- C7 counterexample: in the middleware, an invalid/expired token and a
valid token whose user was deleted produce different 401 messages, so the
caller can tell the two failure modes apart. -/
theorem C7_counterexample_middleware_messages_differ :
    authenticateJWT [] (.bearer { claims := { userId := 1 }, validSig := false, expired := false })
      = .reject 401 "Invalid or expired token"
    ∧ authenticateJWT [] (.bearer { claims := { userId := 1 }, validSig := true, expired := false })
      = .reject 401 "User no longer exists"
    ∧ "Invalid or expired token" ≠ "User no longer exists" := by
  refine ⟨rfl, rfl, by decide⟩

/-- C7 amended: the two login failure branches — unknown username, and
existing username with wrong password — return the identical 401 message
"Invalid credentials"; the middleware pair is not identical (see the
counterexample). -/
theorem C7_amended_login_messages_identical (verify : String → String → Bool)
    (db : List UserRow) (username password : String)
    (hu : username ≠ "") (hp : password ≠ "") :
    (getUserByUsername db username = none →
      loginHandler verify db username password = .unauthorized "Invalid credentials")
    ∧ (∀ user, getUserByUsername db username = some user →
        verify password user.password_hash = false →
        loginHandler verify db username password = .unauthorized "Invalid credentials") := by
  constructor
  · intro h
    simp [loginHandler, hu, hp, h]
  · intro user h hv
    simp [loginHandler, hu, hp, h, hv]

/-- C7 witness: the amended theorem applied to a concrete store holding
only `aliceTotp`, once with an unknown username and once with a wrong
password. -/
theorem C7_amended_login_messages_identical_witness :
    loginHandler (fun _ _ => false) [aliceTotp] "bob" "pw"
      = .unauthorized "Invalid credentials"
    ∧ loginHandler (fun _ _ => false) [aliceTotp] "alice" "wrong"
      = .unauthorized "Invalid credentials" := by
  refine ⟨(C7_amended_login_messages_identical (fun _ _ => false) [aliceTotp] "bob" "pw"
      (by decide) (by decide)).1 rfl,
    (C7_amended_login_messages_identical (fun _ _ => false) [aliceTotp] "alice" "wrong"
      (by decide) (by decide)).2 aliceTotp rfl rfl⟩

/-- C8 counterexample: a timeout failure (`ECONNABORTED`) maps to status
500 — the generic-error status — not to the fixed gateway-error status 502,
which only connection-refused receives; so connection failures do not map
to one fixed gateway-error status and timeouts have no dedicated
classification branch. -/
theorem C8_counterexample_timeout_not_gateway_status :
    (proxyToRsf (.failure (some "ECONNABORTED") "timeout of 30000ms exceeded")).status = 500
    ∧ (proxyToRsf (.failure (some "ECONNREFUSED") "connect ECONNREFUSED 127.0.0.1:8080")).status = 502
    ∧ (500 : Nat) ≠ 502 := by
  refine ⟨rfl, rfl, by decide⟩

/-- C8 amended: the forwarder never throws: every axios outcome becomes a
structured `{status, data}` result; upstream responses pass through
verbatim; a thrown `ECONNREFUSED` becomes the fixed 502 gateway result;
every other thrown transport error — timeouts included — becomes 500 with
`'Proxy error: ' + message`, distinguishable only through the underlying
library message text. -/
theorem C8_amended_forwarder_classification (outcome : AxiosOutcome) :
    (∀ s d, outcome = .response s d → proxyToRsf outcome = ⟨s, d⟩)
    ∧ (∀ code msg, outcome = .failure code msg →
        (code = some "ECONNREFUSED" →
          proxyToRsf outcome
            = ⟨502, .obj [("success", .bool false),
                ("message", .str "RustSploit API is not reachable")]⟩)
        ∧ (code ≠ some "ECONNREFUSED" →
          proxyToRsf outcome
            = ⟨500, .obj [("success", .bool false),
                ("message", .str ("Proxy error: " ++ msg))]⟩)) := by
  constructor
  · intro s d h
    subst h
    rfl
  · intro code msg h
    subst h
    constructor
    · intro hc
      subst hc
      rfl
    · intro hc
      simp [proxyToRsf, hc]

/-- C8 witness: the amended theorem applied to a concrete upstream
response, a concrete refused connection and a concrete timeout. -/
theorem C8_amended_forwarder_classification_witness :
    proxyToRsf (.response 404 (.str "nope")) = ⟨404, .str "nope"⟩
    ∧ proxyToRsf (.failure (some "ECONNREFUSED") "connect ECONNREFUSED 127.0.0.1:8080")
      = ⟨502, .obj [("success", .bool false),
          ("message", .str "RustSploit API is not reachable")]⟩
    ∧ proxyToRsf (.failure (some "ECONNABORTED") "timeout of 30000ms exceeded")
      = ⟨500, .obj [("success", .bool false),
          ("message", .str ("Proxy error: " ++ "timeout of 30000ms exceeded"))]⟩ := by
  refine ⟨(C8_amended_forwarder_classification (.response 404 (.str "nope"))).1 404 (.str "nope") rfl,
    ((C8_amended_forwarder_classification
        (.failure (some "ECONNREFUSED") "connect ECONNREFUSED 127.0.0.1:8080")).2
      (some "ECONNREFUSED") "connect ECONNREFUSED 127.0.0.1:8080" rfl).1 rfl,
    ((C8_amended_forwarder_classification
        (.failure (some "ECONNABORTED") "timeout of 30000ms exceeded")).2
      (some "ECONNABORTED") "timeout of 30000ms exceeded" rfl).2 (by simp)⟩

/-- C10: `POST /api/users` validates roles against
`['pentester','admin','sysadmin']`, rejecting `operator` and `readonly`
with a 400 validation error, while `PUT /api/users/:id` validates against
all five roles — so (for a sysadmin requester and a non-sysadmin target)
`operator` and `readonly` can be assigned by update although creation
refuses them. -/
theorem C10_create_and_update_role_lists_diverge
    (requesterRole targetRole : String)
    (hreq : requesterRole = "sysadmin") :
    (∀ r, (r = "operator" ∨ r = "readonly") →
      postUsersRoleCheck requesterRole (some r)
        = .invalidRole 400 "Invalid role. Must be: pentester, admin, sysadmin")
    ∧ (∀ r, r ∈ createUserValidRoles →
        postUsersRoleCheck requesterRole (some r) = .accepted r)
    ∧ (∀ r, r ∈ updateUserValidRoles →
        putUsersRoleCheck requesterRole targetRole r = .accepted r)
    ∧ putUsersRoleCheck requesterRole targetRole "operator" = .accepted "operator"
    ∧ postUsersRoleCheck requesterRole (some "operator")
      = .invalidRole 400 "Invalid role. Must be: pentester, admin, sysadmin" := by
  subst hreq
  refine ⟨?_, ?_, ?_, ?_, ?_⟩
  · rintro r (rfl | rfl) <;> rfl
  · intro r hr
    simp only [createUserValidRoles, List.mem_cons, List.not_mem_nil, or_false] at hr
    rcases hr with rfl | rfl | rfl <;>
      simp [postUsersRoleCheck, createUserValidRoles]
  · intro r hr
    simp only [updateUserValidRoles, List.mem_cons, List.not_mem_nil, or_false] at hr
    rcases hr with rfl | rfl | rfl | rfl | rfl <;>
      simp [putUsersRoleCheck, updateUserValidRoles]
  · simp [putUsersRoleCheck, updateUserValidRoles]
  · rfl

/-- C10 witness: the theorem applied with a sysadmin requester and a
pentester target: creation rejects `operator` and `readonly` with 400,
accepts its three listed roles, and update accepts all five. -/
theorem C10_create_and_update_role_lists_diverge_witness :
    postUsersRoleCheck "sysadmin" (some "operator")
      = .invalidRole 400 "Invalid role. Must be: pentester, admin, sysadmin"
    ∧ postUsersRoleCheck "sysadmin" (some "readonly")
      = .invalidRole 400 "Invalid role. Must be: pentester, admin, sysadmin"
    ∧ postUsersRoleCheck "sysadmin" (some "admin") = .accepted "admin"
    ∧ putUsersRoleCheck "sysadmin" "pentester" "operator" = .accepted "operator"
    ∧ putUsersRoleCheck "sysadmin" "pentester" "readonly" = .accepted "readonly" := by
  obtain ⟨h1, h2, h3, h4, h5⟩ :=
    C10_create_and_update_role_lists_diverge "sysadmin" "pentester" rfl
  exact ⟨h1 "operator" (Or.inl rfl), h1 "readonly" (Or.inr rfl),
    h2 "admin" (by simp [createUserValidRoles]),
    h3 "operator" (by simp [updateUserValidRoles]),
    h3 "readonly" (by simp [updateUserValidRoles])⟩

/-- C2 counterexample: the custom-document branch of
`getEffectivePermissions` runs before the sysadmin branch, so a sysadmin
whose `custom_acl_json` parses gets that document back verbatim, not the
built-in all-access document. -/
theorem C2_counterexample_custom_doc_beats_sysadmin :
    getEffectivePermissions []
      (mkUser 1 "sysadmin" none (some (.parsed (.obj [("panels", .obj [])]))))
      = .obj [("panels", .obj [])]
    ∧ .obj [("panels", .obj [])] ≠ sysadminDoc := by
  refine ⟨rfl, ?_⟩
  intro h
  simp [sysadminDoc, mkPanels] at h

/-- C2 amended: a present, parseable custom permission document is
returned verbatim by the resolver for every role, sysadmin included; only
when no such document is present does a sysadmin receive the built-in
all-access document.  The non-sysadmin half of the original claim holds
unchanged (the first conjunct makes no assumption on the role). -/
theorem C2_amended_custom_wins_sysadmin_otherwise
    (templates : List AclTemplateRow) (u : UserRow) :
    (∀ v, u.custom_acl_json = some (.parsed v) →
      getEffectivePermissions templates u = v)
    ∧ (u.role = "sysadmin" → (∀ v, u.custom_acl_json ≠ some (.parsed v)) →
        getEffectivePermissions templates u = sysadminDoc) := by
  constructor
  · intro v h
    simp [getEffectivePermissions, h]
  · intro hrole hc
    match hcu : u.custom_acl_json with
    | none => simp [getEffectivePermissions, hcu, hrole]
    | some .empty => simp [getEffectivePermissions, hcu, hrole]
    | some .malformed => simp [getEffectivePermissions, hcu, hrole]
    | some (.parsed v) => exact absurd hcu (hc v)

/-- C2 witness: the amended theorem applied to a non-sysadmin user with a
custom document (returned verbatim) and to a sysadmin without one (who
gets the all-access document). -/
theorem C2_amended_custom_wins_sysadmin_otherwise_witness :
    getEffectivePermissions []
      (mkUser 2 "readonly" none (some (.parsed (.obj [("panels", .obj [])]))))
      = .obj [("panels", .obj [])]
    ∧ getEffectivePermissions [] (mkUser 3 "sysadmin" none none) = sysadminDoc := by
  refine ⟨(C2_amended_custom_wins_sysadmin_otherwise []
      (mkUser 2 "readonly" none (some (.parsed (.obj [("panels", .obj [])]))))).1
      (.obj [("panels", .obj [])]) rfl,
    (C2_amended_custom_wins_sysadmin_otherwise [] (mkUser 3 "sysadmin" none none)).2
      rfl ?_⟩
  intro v h
  simp [mkUser] at h

/-- C5 counterexample: only text that `JSON.parse` rejects falls through;
text that parses to a structurally invalid document — here the JSON array
`[]` — is returned verbatim instead of the role-default/fallback document. -/
theorem C5_counterexample_parseable_invalid_structure_returned :
    getEffectivePermissions [] (mkUser 1 "pentester" none (some (.parsed (.arr []))))
      = .arr []
    ∧ .arr [] ≠ defaultDoc := by
  refine ⟨rfl, ?_⟩
  intro h
  simp [defaultDoc, mkPanels] at h

/-- C5 amended: a custom document that fails `JSON.parse` (or is the empty
string, which is falsy and skipped) makes the resolver behave exactly as
if the column were NULL, with no error raised (the resolver is a total
function); but a document that parses — whatever its structure — is
returned verbatim (see the counterexample). -/
theorem C5_amended_unparseable_custom_falls_through
    (templates : List AclTemplateRow) (u : UserRow)
    (h : u.custom_acl_json = none ∨ u.custom_acl_json = some .empty
      ∨ u.custom_acl_json = some .malformed) :
    getEffectivePermissions templates u
      = getEffectivePermissions templates { u with custom_acl_json := none } := by
  rcases h with h | h | h <;> simp [getEffectivePermissions, h]

/-- C5 witness: the amended theorem applied to a pentester whose custom
column holds unparseable text; resolution equals that of the same user
with a NULL column, which is the fallback document. -/
theorem C5_amended_unparseable_custom_falls_through_witness :
    getEffectivePermissions [] (mkUser 4 "pentester" none (some .malformed))
      = defaultDoc := by
  exact (C5_amended_unparseable_custom_falls_through []
    (mkUser 4 "pentester" none (some .malformed)) (Or.inr (Or.inr rfl))).trans rfl

/-- C6 counterexample: `getEffectivePermissions` has no `pentester` role
branch, so a pentester with no custom document and an existing template
receives the template's document, not the built-in pentester default. -/
theorem C6_counterexample_pentester_template_wins :
    getEffectivePermissions
      [{ id := 3, name := "T", permissions_json := .parsed (.obj [("panels", .obj [])]) }]
      (mkUser 1 "pentester" (some 3) none)
      = .obj [("panels", .obj [])]
    ∧ .obj [("panels", .obj [])] ≠ defaultDoc := by
  refine ⟨rfl, ?_⟩
  intro h
  simp [defaultDoc, mkPanels] at h

/-- C6 amended: with no parseable custom document, role defaults take
precedence over the template only for the roles that have a dedicated
branch — `admin`, `operator`, `readonly` (and `sysadmin`, see C2); a
`pentester` has no branch, so an existing, parseable template wins for
pentester, and the built-in pentester document serves only as the final
fallback. -/
theorem C6_amended_role_defaults_beat_template_except_pentester
    (templates : List AclTemplateRow) (u : UserRow)
    (hc : u.custom_acl_json = none ∨ u.custom_acl_json = some .empty
      ∨ u.custom_acl_json = some .malformed) :
    ((u.role = "admin" → getEffectivePermissions templates u = adminDoc)
     ∧ (u.role = "operator" → getEffectivePermissions templates u = operatorDoc)
     ∧ (u.role = "readonly" → getEffectivePermissions templates u = readonlyDoc))
    ∧ (∀ tid t v, u.role = "pentester" → u.acl_template_id = some tid → tid ≠ 0 →
        findTemplate templates tid = some t → t.permissions_json = .parsed v →
        getEffectivePermissions templates u = v) := by
  refine ⟨⟨?_, ?_, ?_⟩, ?_⟩
  · intro hrole
    rcases hc with h | h | h <;> simp [getEffectivePermissions, h, hrole]
  · intro hrole
    rcases hc with h | h | h <;> simp [getEffectivePermissions, h, hrole]
  · intro hrole
    rcases hc with h | h | h <;> simp [getEffectivePermissions, h, hrole]
  · intro tid t v hrole htid htidne hfind hparse
    rcases hc with h | h | h <;>
      simp [getEffectivePermissions, h, hrole, htid, htidne, hfind, hparse]

/-- C6 witness: the amended theorem applied to an admin with a template
(role default wins) and to a pentester with the same template (template
wins). -/
theorem C6_amended_role_defaults_beat_template_except_pentester_witness :
    getEffectivePermissions
      [{ id := 3, name := "T", permissions_json := .parsed (.obj [("panels", .obj [])]) }]
      (mkUser 5 "admin" (some 3) none) = adminDoc
    ∧ getEffectivePermissions
      [{ id := 3, name := "T", permissions_json := .parsed (.obj [("panels", .obj [])]) }]
      (mkUser 6 "pentester" (some 3) none) = .obj [("panels", .obj [])] := by
  refine ⟨(C6_amended_role_defaults_beat_template_except_pentester
      [{ id := 3, name := "T", permissions_json := .parsed (.obj [("panels", .obj [])]) }]
      (mkUser 5 "admin" (some 3) none) (Or.inl rfl)).1.1 rfl,
    (C6_amended_role_defaults_beat_template_except_pentester
      [{ id := 3, name := "T", permissions_json := .parsed (.obj [("panels", .obj [])]) }]
      (mkUser 6 "pentester" (some 3) none) (Or.inl rfl)).2 3
      { id := 3, name := "T", permissions_json := .parsed (.obj [("panels", .obj [])]) }
      (.obj [("panels", .obj [])]) rfl rfl (by decide) rfl rfl⟩

/-- Reading any property of a value other than `null`/`undefined` succeeds
(yielding the property value or `undefined`). -/
theorem jsGetMember_ok_of_ne (v : JsVal) (k : String)
    (hn : v ≠ .null) (hu : v ≠ .undefined) : ∃ w, jsGetMember v k = .ok w := by
  cases v with
  | null => exact absurd rfl hn
  | undefined => exact absurd rfl hu
  | bool b => exact ⟨.undefined, rfl⟩
  | num n => exact ⟨.undefined, rfl⟩
  | str s => exact ⟨.undefined, rfl⟩
  | arr l => exact ⟨.undefined, rfl⟩
  | obj fields =>
    rcases hf : fields.find? (fun p => p.1 = k) with _ | p
    · exact ⟨.undefined, by simp [jsGetMember, hf]⟩
    · exact ⟨p.2, by simp [jsGetMember, hf]⟩

/-- A truthy value is neither `null` nor `undefined`. -/
theorem toBool_ne_null_ne_undefined (v : JsVal) (h : v.toBool = true) :
    v ≠ .null ∧ v ≠ .undefined := by
  cases v <;> simp_all [JsVal.toBool]

/-- C4 counterexample: a user whose custom document parses to `{}` (no
`panels` member) makes `requirePermission` read
`undefined["modules"]`, which raises `TypeError` instead of denying. -/
theorem C4_counterexample_missing_panels_throws :
    requirePermissionRun [] (mkUser 1 "pentester" none (some (.parsed (.obj []))))
      "modules.view" = .error .typeError := by
  rfl

/-- C4 amended: whenever the resolved document has an indexable `panels`
member (neither `null` nor `undefined` — true of every built-in document
and of any custom/template document with a `panels` object), the check
never throws: it allows or denies with 403, a missing panel key denies,
and a missing action key under a present panel object denies.  When the
resolved custom document has no such member (e.g. it parses to `{}` or
`null`), the member read throws (see the counterexample). -/
theorem C4_amended_no_throw_with_indexable_panels
    (templates : List AclTemplateRow) (u : UserRow) (permission : String)
    (pv : JsVal)
    (hpv : jsGetMember (getEffectivePermissions templates u) "panels" = .ok pv)
    (hn : pv ≠ .null) (hu : pv ≠ .undefined) :
    (∃ d, requirePermissionRun templates u permission = .ok d)
    ∧ (∀ fields, pv = .obj fields →
        fields.find? (fun p => p.1 = (splitPermission permission).1) = none →
        requirePermissionRun templates u permission = .ok (.denied permission))
    ∧ (∀ fields pr afields, pv = .obj fields →
        fields.find? (fun p => p.1 = (splitPermission permission).1) = some pr →
        pr.2 = .obj afields →
        afields.find? (fun p => p.1 = (splitPermission permission).2) = none →
        requirePermissionRun templates u permission = .ok (.denied permission)) := by
  have hrun : requirePermissionRun templates u permission =
      match jsGetMember pv (splitPermission permission).1 with
      | .error e => .error e
      | .ok v1 =>
        if v1.toBool = false then .ok (.denied permission)
        else
          match jsGetMember pv (splitPermission permission).1 with
          | .error e => .error e
          | .ok v2 =>
            match jsGetMember v2 (splitPermission permission).2 with
            | .error e => .error e
            | .ok v3 =>
              if v3.toBool = false then .ok (.denied permission)
              else .ok .allowed := by
    simp only [requirePermissionRun, hpv]
  refine ⟨?_, ?_, ?_⟩
  · obtain ⟨v1, hv1⟩ := jsGetMember_ok_of_ne pv (splitPermission permission).1 hn hu
    rw [hrun, hv1]
    by_cases hb : v1.toBool = false
    · exact ⟨.denied permission, by simp [hb]⟩
    · have ht : v1.toBool = true := by
        cases h : v1.toBool
        · exact absurd h hb
        · rfl
      obtain ⟨hvn, hvu⟩ := toBool_ne_null_ne_undefined v1 ht
      obtain ⟨v3, hv3⟩ := jsGetMember_ok_of_ne v1 (splitPermission permission).2 hvn hvu
      by_cases hb3 : v3.toBool = false
      · exact ⟨.denied permission, by simp [hb, hv1, hv3, hb3]⟩
      · exact ⟨.allowed, by simp [hb, hv1, hv3, hb3]⟩
  · intro fields hf hfind
    subst hf
    rw [hrun]
    simp [jsGetMember, hfind, JsVal.toBool]
  · intro fields pr afields hf hfind hpr hafind
    subst hf
    rw [hrun]
    simp only [jsGetMember, hfind]
    by_cases hb : pr.2.toBool = false
    · simp [hb]
    · simp only [hb, if_false]
      rw [hpr]
      simp [jsGetMember, hafind, JsVal.toBool]

/-- C4 witness: the amended theorem applied to a pentester resolving to
the fallback document (whose `panels` member is an object): `modules.view`
never throws, a missing panel (`nosuch.view`) denies, and a missing action
under a present panel (`jobs.kill`) denies. -/
theorem C4_amended_no_throw_with_indexable_panels_witness :
    (∃ d, requirePermissionRun [] (mkUser 1 "pentester" none none) "modules.view" = .ok d)
    ∧ requirePermissionRun [] (mkUser 1 "pentester" none none) "nosuch.view"
      = .ok (.denied "nosuch.view")
    ∧ requirePermissionRun [] (mkUser 1 "pentester" none none) "jobs.kill"
      = .ok (.denied "jobs.kill") := by
  refine ⟨(C4_amended_no_throw_with_indexable_panels [] (mkUser 1 "pentester" none none)
      "modules.view" _ rfl (by simp) (by simp)).1,
    (C4_amended_no_throw_with_indexable_panels [] (mkUser 1 "pentester" none none)
      "nosuch.view" _ rfl (by simp) (by simp)).2.1 _ rfl rfl,
    (C4_amended_no_throw_with_indexable_panels [] (mkUser 1 "pentester" none none)
      "jobs.kill" _ rfl (by simp) (by simp)).2.2 _ _ _ rfl rfl rfl rfl⟩

/-- With no parseable custom document and no template reference, the
resolver yields one of the built-in role-default documents or the global
fallback. -/
theorem getEff_builtin_of_no_custom_no_template
    (templates : List AclTemplateRow) (u : UserRow)
    (hc : u.custom_acl_json = none ∨ u.custom_acl_json = some .empty
      ∨ u.custom_acl_json = some .malformed)
    (htpl : u.acl_template_id = none) :
    getEffectivePermissions templates u
      ∈ [sysadminDoc, adminDoc, operatorDoc, readonlyDoc, defaultDoc] := by
  have hval : getEffectivePermissions templates u =
      (if u.role = "sysadmin" then sysadminDoc
       else if u.role = "admin" then adminDoc
       else if u.role = "operator" then operatorDoc
       else if u.role = "readonly" then readonlyDoc
       else defaultDoc) := by
    rcases hc with h | h | h <;> simp [getEffectivePermissions, h, htpl]
  rw [hval]
  by_cases h1 : u.role = "sysadmin"
  · simp [h1]
  by_cases h2 : u.role = "admin"
  · simp [h1, h2]
  by_cases h3 : u.role = "operator"
  · simp [h1, h2, h3]
  by_cases h4 : u.role = "readonly"
  · simp [h1, h2, h3, h4]
  · simp [h1, h2, h3, h4]

/-- C9 counterexample: deleting template 5 nulls `bobCustom`'s reference,
but his subsequent resolution yields his custom document, which is none of
the role-default or global-default documents. -/
theorem C9_counterexample_custom_user_not_role_default :
    (deleteAclTemplate { users := [bobCustom], templates := [tplFive] } 5).1.users
      = [mkUser 9 "pentester" none (some (.parsed (.obj [("k", .bool true)])))]
    ∧ getEffectivePermissions
        (deleteAclTemplate { users := [bobCustom], templates := [tplFive] } 5).1.templates
        (mkUser 9 "pentester" none (some (.parsed (.obj [("k", .bool true)]))))
      = .obj [("k", .bool true)]
    ∧ .obj [("k", .bool true)]
      ∉ [sysadminDoc, adminDoc, operatorDoc, readonlyDoc, defaultDoc] := by
  refine ⟨rfl, rfl, ?_⟩
  intro h
  simp [sysadminDoc, adminDoc, operatorDoc, readonlyDoc, defaultDoc, mkPanels] at h

/-- C9 amended: after deleting an existing template, no user row references
it any more; every user that referenced it remains present with a nulled
reference; and each such user that carries no parseable custom document
thereafter resolves to a built-in role-default or the global fallback
document — never an error (the resolver is total). -/
theorem C9_amended_delete_template_unlinks_and_resolves
    (db : Db) (tid : Nat) (t : AclTemplateRow)
    (ht : findTemplate db.templates tid = some t) :
    (∀ u, u ∈ (deleteAclTemplate db tid).1.users → u.acl_template_id ≠ some tid)
    ∧ (∀ u, u ∈ db.users → u.acl_template_id = some tid →
        { u with acl_template_id := none } ∈ (deleteAclTemplate db tid).1.users
        ∧ ((∀ v, u.custom_acl_json ≠ some (.parsed v)) →
            getEffectivePermissions (deleteAclTemplate db tid).1.templates
              { u with acl_template_id := none }
              ∈ [sysadminDoc, adminDoc, operatorDoc, readonlyDoc, defaultDoc])) := by
  have hdel : deleteAclTemplate db tid =
      ({ users := db.users.map (fun u =>
            if u.acl_template_id = some tid then { u with acl_template_id := none } else u),
         templates := db.templates.filter (fun tp => ¬ tp.id = tid) },
       .deleted "Template deleted successfully") := by
    simp [deleteAclTemplate, ht]
  constructor
  · intro u hu
    rw [hdel] at hu
    simp only [List.mem_map] at hu
    obtain ⟨w, _, rfl⟩ := hu
    by_cases h : w.acl_template_id = some tid
    · simp [h]
    · simp [h]
  · intro u hu htid
    constructor
    · rw [hdel]
      simp only [List.mem_map]
      exact ⟨u, hu, by simp [htid]⟩
    · intro hc
      have hcu : u.custom_acl_json = none ∨ u.custom_acl_json = some .empty
          ∨ u.custom_acl_json = some .malformed := by
        rcases hcuv : u.custom_acl_json with _ | st
        · exact Or.inl rfl
        · cases st with
          | empty => exact Or.inr (Or.inl rfl)
          | malformed => exact Or.inr (Or.inr rfl)
          | parsed v => exact absurd hcuv (hc v)
      exact getEff_builtin_of_no_custom_no_template _ _ hcu rfl

/-- C9 witness: the amended theorem applied to a store holding template 5
and a readonly user referencing it: after deletion the user's reference is
gone and resolution yields the readonly role default. -/
theorem C9_amended_delete_template_unlinks_and_resolves_witness :
    ({ mkUser 8 "readonly" (some 5) none with acl_template_id := none }
        ∈ (deleteAclTemplate
            { users := [mkUser 8 "readonly" (some 5) none], templates := [tplFive] } 5).1.users)
    ∧ getEffectivePermissions
        (deleteAclTemplate
          { users := [mkUser 8 "readonly" (some 5) none], templates := [tplFive] } 5).1.templates
        { mkUser 8 "readonly" (some 5) none with acl_template_id := none }
      ∈ [sysadminDoc, adminDoc, operatorDoc, readonlyDoc, defaultDoc] := by
  obtain ⟨_, h2⟩ := C9_amended_delete_template_unlinks_and_resolves
    { users := [mkUser 8 "readonly" (some 5) none], templates := [tplFive] } 5 tplFive rfl
  obtain ⟨hmem, hres⟩ := h2 (mkUser 8 "readonly" (some 5) none) (by simp) rfl
  exact ⟨hmem, hres (by intro v h; simp [mkUser] at h)⟩
